import Mathlib

/-!
Shallow embedding of `src/snapshot.py` (class `WebSnapshot`), the single
source file of the web-snapshot repository.

The program drives a headless browser.  Every call into the outside world
(navigation, script execution, waits, screenshot saving, file writing) is
modelled by an oracle stored in an `Env`: the oracle's answer is either a
value or an exception, exactly the two outcomes the Python call can have.
The observable effects of a run (sleeps performed, scroll commands issued,
page heights read back, window resizes, files written) are accumulated in a
`Trace`, threaded explicitly through every step.  The unbounded
`while True` loop of `scroll_to_bottom` is given a fuel parameter; running
out of fuel yields the `diverge` outcome, marking a run of the Python code
that has not terminated within that many passes.

Modelling conventions:
- machine/JS numbers that are always non-negative integers in the program
  (scroll heights, page metrics, mutation counts) are `Nat`;
- the CLI `--wait-time` value is an `Int` (argparse `type=int` accepts any
  integer, including negative ones);
- sleep durations are `Rat` seconds (the code sleeps for 0.5 s);
- `time.sleep` with a negative argument raises `ValueError`, modelled by
  `Exc.valueError`, and performs no sleep;
- `os.path.join(dir, name)` is modelled as `dir ++ "/" ++ name` (POSIX,
  no trailing separator on `dir`);
- `window.scrollTo(0, document.body.scrollHeight * i/10)` commands are
  modelled as always succeeding; the page-height reads
  (`return document.body.scrollHeight`) and every other browser call are
  fallible.
-/

namespace WebSnapshot

/-- Exceptions that the Python calls in `snapshot.py` can raise:
`selenium.common.exceptions.TimeoutException`, the `ValueError` raised by
`time.sleep` on a negative duration, and any other exception (WebDriver
errors, OS errors, ...) carrying a message. -/
inductive Exc where
  | timeoutException
  | valueError
  | otherError (msg : String)
deriving DecidableEq, Repr

/-- A scroll command issued through `driver.execute_script`:
`toFrac i` is `window.scrollTo(0, document.body.scrollHeight * i/10)`,
`toBottom` is `window.scrollTo(0, document.body.scrollHeight)`,
`toTop` is `window.scrollTo(0, 0)`. -/
inductive ScrollTarget where
  | toFrac (i : Nat)
  | toBottom
  | toTop
deriving DecidableEq, Repr

/-- JSON values, enough to express the sidecar built in
`capture_screenshot` (strings, non-negative numbers, objects). -/
inductive JsonValue where
  | str (s : String)
  | num (n : Nat)
  | obj (fields : List (String × JsonValue))
deriving Repr

/-- Field lookup in a JSON object (`none` on non-objects and missing keys). -/
def JsonValue.lookupField : JsonValue → String → Option JsonValue
  | .obj fs, k => fs.lookup k
  | _, _ => none

/-- The keys of a JSON object, in order (empty for non-objects). -/
def JsonValue.keys : JsonValue → List String
  | .obj fs => fs.map Prod.fst
  | _ => []

/-- A file created on disk by `capture_screenshot`: the PNG written by
`driver.save_screenshot` or the JSON sidecar written by `json.dump`. -/
inductive FileEntry where
  | png (path : String)
  | json (path : String) (content : JsonValue)
deriving Repr

/-- Is this file entry a PNG? -/
def FileEntry.isPng : FileEntry → Bool
  | .png _ => true
  | _ => false

/-- Is this file entry a JSON sidecar? -/
def FileEntry.isJson : FileEntry → Bool
  | .json _ _ => true
  | _ => false

/-- The observable effects of a run: sleep durations in seconds in the
order performed, scroll commands issued, page heights read back from the
browser, window sizes set by `driver.set_window_size`, and files written. -/
structure Trace where
  sleeps : List Rat
  scrolls : List ScrollTarget
  measures : List Nat
  windowSets : List (Nat × Nat)
  files : List FileEntry
deriving Repr

/-- The empty trace, at the start of a capture. -/
def Trace.empty : Trace := ⟨[], [], [], [], []⟩

/-- Record a sleep of `d` seconds. -/
def Trace.sleep (t : Trace) (d : Rat) : Trace :=
  { t with sleeps := t.sleeps ++ [d] }

/-- Record a scroll command. -/
def Trace.scroll (t : Trace) (c : ScrollTarget) : Trace :=
  { t with scrolls := t.scrolls ++ [c] }

/-- Record a page-height measurement returned by the browser. -/
def Trace.measured (t : Trace) (h : Nat) : Trace :=
  { t with measures := t.measures ++ [h] }

/-- Record a `driver.set_window_size(w, h)` call. -/
def Trace.setWin (t : Trace) (wh : Nat × Nat) : Trace :=
  { t with windowSets := t.windowSets ++ [wh] }

/-- Record a file written to disk. -/
def Trace.addFile (t : Trace) (f : FileEntry) : Trace :=
  { t with files := t.files ++ [f] }

/-- Outcome of a (possibly effectful) step: a value, a raised exception, or
divergence (the step never terminates). -/
inductive Outcome (α : Type) where
  | ok (a : α)
  | exc (e : Exc)
  | diverge
deriving Repr

/-- Sequencing of steps: exceptions and divergence propagate, the trace is
kept in either case (an exception does not undo effects already made). -/
def andThen {α β : Type} (r : Outcome α × Trace) (f : α → Trace → Outcome β × Trace) :
    Outcome β × Trace :=
  match r with
  | (.ok a, t) => f a t
  | (.exc e, t) => (.exc e, t)
  | (.diverge, t) => (.diverge, t)

/-- Lift an oracle answer into a step (no effect on the trace). -/
def liftExc {α : Type} (x : Except Exc α) (t : Trace) : Outcome α × Trace :=
  match x with
  | .ok a => (.ok a, t)
  | .error e => (.exc e, t)

/-- Model of `time.sleep(d)`: raises `ValueError` when `d` is negative
(performing no sleep), otherwise records a sleep of `d` seconds. -/
def timeSleep (d : Rat) (t : Trace) : Outcome Unit × Trace :=
  if d < 0 then (.exc Exc.valueError, t)
  else (.ok (), t.sleep d)

/-- The five height metrics combined by the `Math.max` script at lines
248-256 of `snapshot.py`. -/
structure HeightMetrics where
  bodyScrollHeight : Nat
  bodyOffsetHeight : Nat
  docClientHeight : Nat
  docScrollHeight : Nat
  docOffsetHeight : Nat
deriving DecidableEq, Repr

/-- Value returned by the height script: `Math.max` of the five metrics. -/
def HeightMetrics.total (m : HeightMetrics) : Nat :=
  max m.bodyScrollHeight (max m.bodyOffsetHeight
    (max m.docClientHeight (max m.docScrollHeight m.docOffsetHeight)))

/-- The five width metrics combined by the `Math.max` script at lines
258-266 of `snapshot.py`. -/
structure WidthMetrics where
  bodyScrollWidth : Nat
  bodyOffsetWidth : Nat
  docClientWidth : Nat
  docScrollWidth : Nat
  docOffsetWidth : Nat
deriving DecidableEq, Repr

/-- Value returned by the width script: `Math.max` of the five metrics. -/
def WidthMetrics.total (m : WidthMetrics) : Nat :=
  max m.bodyScrollWidth (max m.bodyOffsetWidth
    (max m.docClientWidth (max m.docScrollWidth m.docOffsetWidth)))

/-- Oracles for every call `capture_screenshot` makes into the outside
world, in the order the code can make them.  `scrollHeight k` is the k-th
read of `document.body.scrollHeight` inside `scroll_to_bottom` (k = 0 is
the read before the first pass); `stableHeight k` is the k-th sample inside
`wait_for_content_stable`.  `now` is the `datetime.now().strftime` result. -/
structure Env where
  navGet : Except Exc Unit
  bodyWait : Except Exc Unit
  scrollHeight : Nat → Except Exc Nat
  stableHeight : Nat → Except Exc Nat
  imagesWait : Except Exc Unit
  ajaxWait : Except Exc Unit
  mutationChanges : Except Exc Nat
  heightMetrics : Except Exc HeightMetrics
  widthMetrics : Except Exc WidthMetrics
  setWindow : Except Exc Unit
  now : String
  saveScreenshot : Except Exc Unit
  title : Except Exc String
  currentUrl : Except Exc String
  userAgent : Except Exc String
  jsonWrite : Except Exc Unit

/-- One pass of the progressive scroll (`snapshot.py` lines 95-102):
`for i in range(1, 10)` scrolls to `scrollHeight * i/10` sleeping 0.5 s
after each, then scrolls to the bottom and sleeps 2 s. -/
def scrollPass (t : Trace) : Trace :=
  let t := [1, 2, 3, 4, 5, 6, 7, 8, 9].foldl
    (fun tr i => (tr.scroll (ScrollTarget.toFrac i)).sleep (1/2)) t
  (t.scroll ScrollTarget.toBottom).sleep 2

/-- The `while True` loop of `scroll_to_bottom` (lines 94-111): scroll a
pass, read the new height (read index `k`), stop when it equals
`last_height`, else continue.  `fuel` bounds the number of passes modelled;
exhausting it yields `diverge`. -/
def scrollLoop (env : Env) : Nat → Nat → Nat → Trace → Outcome Unit × Trace
  | 0, _, _, t => (.diverge, t)
  | fuel + 1, last_height, k, t =>
    let t := scrollPass t
    match env.scrollHeight k with
    | .error e => (.exc e, t)
    | .ok new_height =>
      let t := t.measured new_height
      if new_height = last_height then (.ok (), t)
      else scrollLoop env fuel new_height (k + 1) t

/-- `scroll_to_bottom` (lines 84-115): read the initial height, run the
pass loop, then scroll back to the top.  There is no exception handler in
this method: an error from a height read propagates to the caller. -/
def scroll_to_bottom (env : Env) (fuel : Nat) (t : Trace) : Outcome Unit × Trace :=
  match env.scrollHeight 0 with
  | .error e => (.exc e, t)
  | .ok h0 =>
    let t := t.measured h0
    match scrollLoop env fuel h0 1 t with
    | (.ok _, t) => (.ok (), t.scroll ScrollTarget.toTop)
    | r => r

/-- The polling loop of `wait_for_content_stable` (lines 129-137): each
iteration takes 1 s (the trailing `time.sleep(1)`), so the guard
`time.time() - start_time < timeout` allows `timeout` iterations.
`remaining` counts the iterations still allowed, `k` indexes the sample,
`last_height` is the previous comparison value (initially 0).  A sample
equal to `last_height` sleeps 2 s and returns `true`; exhausting the
allowance returns `false`.  No exception handler here either. -/
def stableLoop (env : Env) : Nat → Nat → Nat → Trace → Outcome Bool × Trace
  | 0, _, _, t => (.ok false, t)
  | remaining + 1, k, last_height, t =>
    match env.stableHeight k with
    | .error e => (.exc e, t)
    | .ok current_height =>
      let t := t.measured current_height
      if current_height = last_height then (.ok true, t.sleep 2)
      else stableLoop env remaining (k + 1) current_height (t.sleep 1)

/-- `wait_for_content_stable` (lines 117-137), with its default
`timeout=10`. -/
def wait_for_content_stable (env : Env) (timeout : Nat) (t : Trace) :
    Outcome Bool × Trace :=
  stableLoop env timeout 0 0 t

/-- `wait_for_images` (lines 139-152): a `WebDriverWait(..., 10)` whose
`TimeoutException` is caught and only logged; any other exception from the
wait propagates. -/
def wait_for_images (env : Env) (t : Trace) : Outcome Unit × Trace :=
  match env.imagesWait with
  | .ok _ => (.ok (), t)
  | .error .timeoutException => (.ok (), t)
  | .error e => (.exc e, t)

/-- `wait_for_dynamic_content` (lines 154-206): the AJAX wait and the
mutation-observer script run under `except Exception`, so any exception
(timeouts included) yields `False`; otherwise the result is `True` exactly
when the observed mutation count is 0. -/
def wait_for_dynamic_content (env : Env) (t : Trace) : Outcome Bool × Trace :=
  match env.ajaxWait with
  | .error _ => (.ok false, t)
  | .ok _ =>
    match env.mutationChanges with
    | .error _ => (.ok false, t)
    | .ok changes => (.ok (if changes = 0 then true else false), t)

/-- The extra-delay step of `capture_screenshot` (lines 242-245): sleep
when a wait time was supplied or the content was not confirmed stable; the
duration is the supplied wait time, default 3 s. -/
def extraDelay (wait_time : Option Int) (content_stable dynamic_content_loaded : Bool)
    (t : Trace) : Outcome Unit × Trace :=
  if wait_time.isSome || !(content_stable && dynamic_content_loaded) then
    timeSleep ((wait_time.getD 3 : Int) : Rat) t
  else (.ok (), t)

/-- `driver.set_window_size(w, h)` (line 269). -/
def setWindowStep (env : Env) (w h : Nat) (t : Trace) : Outcome Unit × Trace :=
  match env.setWindow with
  | .ok _ => (.ok (), t.setWin (w, h))
  | .error e => (.exc e, t)

/-- `driver.save_screenshot(path)` (line 280): on success the PNG file
appears; on failure the exception propagates and no file is written. -/
def saveScreenshotStep (env : Env) (path : String) (t : Trace) : Outcome Unit × Trace :=
  match env.saveScreenshot with
  | .ok _ => (.ok (), t.addFile (FileEntry.png path))
  | .error e => (.exc e, t)

/-- The `json_data` dictionary built at lines 283-295 of `snapshot.py`.
Note the metadata key is the snake-case string `user_agent`. -/
def snapshotJson (url timestamp : String) (width height : Nat)
    (title current_url user_agent : String) : JsonValue :=
  JsonValue.obj
    [("url", .str url),
     ("timestamp", .str timestamp),
     ("dimensions", .obj [("width", .num width), ("height", .num height)]),
     ("metadata", .obj
       [("title", .str title),
        ("url", .str current_url),
        ("user_agent", .str user_agent)])]

/-- The `open(..., 'w', encoding='utf-8')` / `json.dump(..., ensure_ascii=False,
indent=2)` arguments used to persist the sidecar (lines 299-300). -/
structure JsonDumpOptions where
  encoding : String
  ensure_ascii : Bool
  indent : Nat
deriving DecidableEq, Repr

/-- The options actually passed in `capture_screenshot`. -/
def snapshotDumpOptions : JsonDumpOptions :=
  { encoding := "utf-8", ensure_ascii := false, indent := 2 }

/-- `json.dump` to `open(json_path, 'w')` (lines 299-300): on success the
sidecar appears; on failure the exception propagates. -/
def jsonWriteStep (env : Env) (path : String) (content : JsonValue) (t : Trace) :
    Outcome Unit × Trace :=
  match env.jsonWrite with
  | .ok _ => (.ok (), t.addFile (FileEntry.json path content))
  | .error e => (.exc e, t)

/-- The tail of the `try` block of `capture_screenshot` (lines 247-303):
measure the page, resize the window with the 100-pixel margin, settle 2 s,
save the PNG, build the JSON data and write the sidecar. -/
def captureFinish (env : Env) (url output_dir : String) (t : Trace) :
    Outcome (String × String) × Trace :=
  andThen (liftExc env.heightMetrics t) fun hm t =>
  andThen (liftExc env.widthMetrics t) fun wm t =>
  let total_height := hm.total
  let viewport_width := wm.total
  andThen (setWindowStep env (viewport_width + 100) (total_height + 100) t) fun _ t =>
  andThen (timeSleep 2 t) fun _ t =>
  let timestamp := env.now
  let filename := "snapshot_" ++ timestamp
  let screenshot_path := output_dir ++ "/" ++ filename ++ ".png"
  andThen (saveScreenshotStep env screenshot_path t) fun _ t =>
  andThen (liftExc env.title t) fun page_title t =>
  andThen (liftExc env.currentUrl t) fun current_url t =>
  andThen (liftExc env.userAgent t) fun user_agent t =>
  let json_data := snapshotJson url timestamp viewport_width total_height
    page_title current_url user_agent
  let json_path := output_dir ++ "/" ++ filename ++ ".json"
  andThen (jsonWriteStep env json_path json_data t) fun _ t =>
  (.ok (screenshot_path, json_path), t)

/-- The body of the `try` block of `capture_screenshot` (lines 218-303),
step by step in source order: navigate, wait for the body element, scroll
for lazy loading, poll for stability, wait for images, check dynamic
content, apply the extra delay, then finish with resize + screenshot +
JSON. -/
def captureBody (env : Env) (url output_dir : String) (wait_time : Option Int)
    (fuel : Nat) (t : Trace) : Outcome (String × String) × Trace :=
  andThen (liftExc env.navGet t) fun _ t =>
  andThen (liftExc env.bodyWait t) fun _ t =>
  andThen (scroll_to_bottom env fuel t) fun _ t =>
  andThen (wait_for_content_stable env 10 t) fun content_stable t =>
  andThen (wait_for_images env t) fun _ t =>
  andThen (wait_for_dynamic_content env t) fun dynamic_content_loaded t =>
  andThen (extraDelay wait_time content_stable dynamic_content_loaded t) fun _ t =>
  captureFinish env url output_dir t

/-- `capture_screenshot` (lines 208-310): run the body from an empty trace;
`except TimeoutException` and `except Exception` both turn any raised
exception into the `None` return value, keeping the effects made so far. -/
def capture_screenshot (env : Env) (url output_dir : String)
    (wait_time : Option Int) (fuel : Nat) : Outcome (Option (String × String)) × Trace :=
  match captureBody env url output_dir wait_time fuel Trace.empty with
  | (.ok p, t) => (.ok (some p), t)
  | (.exc _, t) => (.ok none, t)
  | (.diverge, t) => (.diverge, t)

/-- Modelled from `main` (line 325, line 334): argparse parses
`--wait-time` with `type=int` and no range check, and the parsed value is
handed to `WebSnapshot` unchanged, so any integer — negative ones
included — reaches `capture_screenshot`. -/
def mainWaitTime (arg : Option Int) : Option Int := arg

/-- The scroll commands issued during one pass of `scroll_to_bottom`, in
order: the nine intermediate positions `scrollHeight * i/10` for
`i = 1..9`, then the bottom. -/
def passScrolls : List ScrollTarget :=
  [.toFrac 1, .toFrac 2, .toFrac 3, .toFrac 4, .toFrac 5,
   .toFrac 6, .toFrac 7, .toFrac 8, .toFrac 9, .toBottom]

/-- The sleeps performed during one pass of `scroll_to_bottom`, in order:
0.5 s after each intermediate position, 2 s after reaching the bottom. -/
def passSleeps : List Rat :=
  [1/2, 1/2, 1/2, 1/2, 1/2, 1/2, 1/2, 1/2, 1/2, 2]

/-- The value a sample is compared against in `wait_for_content_stable`:
the previous sample, except that the first sample is compared against the
initial `last_height = 0`. -/
def prevSample (s : Nat → Nat) : Nat → Nat
  | 0 => 0
  | k + 1 => s k

/-- Does the list contain two equal adjacent elements?  Used to state the
"two consecutive samples are equal" condition of the specification. -/
def hasConsecutiveEqual : List Nat → Bool
  | a :: b :: rest => a = b || hasConsecutiveEqual (b :: rest)
  | _ => false

/-- A capture run in which every browser call succeeds: the page height is
a constant 600, the page settles immediately, and all reads succeed. -/
def envOK : Env :=
  { navGet := .ok ()
    bodyWait := .ok ()
    scrollHeight := fun _ => .ok 600
    stableHeight := fun _ => .ok 600
    imagesWait := .ok ()
    ajaxWait := .ok ()
    mutationChanges := .ok 0
    heightMetrics := .ok ⟨600, 580, 900, 600, 580⟩
    widthMetrics := .ok ⟨800, 790, 1000, 800, 790⟩
    setWindow := .ok ()
    now := "20250102_030405"
    saveScreenshot := .ok ()
    title := .ok "Example Page"
    currentUrl := .ok "http://example.com/"
    userAgent := .ok "TestUA/1.0"
    jsonWrite := .ok () }

/-- A run identical to `envOK` except that reading `driver.title` — after
the screenshot has already been saved — raises a WebDriver error. -/
def envTitleErr : Env :=
  { envOK with title := .error (Exc.otherError "invalid session id") }

/-- A run identical to `envOK` except that every
`return document.body.scrollHeight` read inside `scroll_to_bottom` raises
a JavaScript error. -/
def envScrollErr : Env :=
  { envOK with scrollHeight := fun _ => .error (Exc.otherError "javascript error") }

/-- A run identical to `envOK` except that the initial navigation times
out. -/
def envNavTimeout : Env :=
  { envOK with navGet := .error Exc.timeoutException }

/-- A run identical to `envOK` except that the height samples seen by
`wait_for_content_stable` are 0, 1, 2, 3, ...: no two consecutive samples
are ever equal, but the very first sample equals the initial comparison
value 0. -/
def envRampHeights : Env :=
  { envOK with stableHeight := fun k => .ok k }

/-- A run identical to `envOK` except that the image wait times out and
the AJAX wait raises: the two failures that the code tolerates
in-phase. -/
def envImgTimeout : Env :=
  { envOK with imagesWait := .error Exc.timeoutException,
               ajaxWait := .error (Exc.otherError "script timeout") }


theorem andThen_eq_ok {α β : Type} {r : Outcome α × Trace}
    {f : α → Trace → Outcome β × Trace} {b : β} {t2 : Trace}
    (h : andThen r f = (Outcome.ok b, t2)) :
    ∃ a t1, r = (Outcome.ok a, t1) ∧ f a t1 = (Outcome.ok b, t2) := by
  obtain ⟨o, t⟩ := r
  cases o with
  | ok a => exact ⟨a, t, rfl, h⟩
  | exc e => simp [andThen] at h
  | diverge => simp [andThen] at h

theorem scrollPass_files (t : Trace) : (scrollPass t).files = t.files := rfl

theorem scrollPass_windowSets (t : Trace) :
    (scrollPass t).windowSets = t.windowSets := rfl

theorem scrollLoop_trace (env : Env) (fuel : Nat) :
    ∀ last k t, (scrollLoop env fuel last k t).2.files = t.files ∧
      (scrollLoop env fuel last k t).2.windowSets = t.windowSets := by
  induction fuel with
  | zero => intro last k t; exact ⟨rfl, rfl⟩
  | succ n ih =>
    intro last k t
    simp only [scrollLoop]
    cases hE : env.scrollHeight k with
    | error e => exact ⟨rfl, rfl⟩
    | ok nh =>
      by_cases hn : nh = last
      · simp only [if_pos hn]; exact ⟨rfl, rfl⟩
      · simp only [if_neg hn]
        exact ih nh (k + 1) ((scrollPass t).measured nh)

theorem scroll_to_bottom_trace (env : Env) (fuel : Nat) (t : Trace) :
    (scroll_to_bottom env fuel t).2.files = t.files ∧
      (scroll_to_bottom env fuel t).2.windowSets = t.windowSets := by
  unfold scroll_to_bottom
  split
  · exact ⟨rfl, rfl⟩
  · next h0 hE =>
      dsimp only
      split
      · next a t2 hL =>
          have h2 := scrollLoop_trace env fuel h0 1 (t.measured h0)
          rw [hL] at h2
          simpa using h2
      · simpa using scrollLoop_trace env fuel h0 1 (t.measured h0)

theorem stableLoop_trace (env : Env) (remaining : Nat) :
    ∀ k last t, (stableLoop env remaining k last t).2.files = t.files ∧
      (stableLoop env remaining k last t).2.windowSets = t.windowSets := by
  induction remaining with
  | zero => intro k last t; exact ⟨rfl, rfl⟩
  | succ n ih =>
    intro k last t
    simp only [stableLoop]
    cases hE : env.stableHeight k with
    | error e => exact ⟨rfl, rfl⟩
    | ok cur =>
      by_cases hc : cur = last
      · simp only [if_pos hc]; exact ⟨rfl, rfl⟩
      · simp only [if_neg hc]
        exact ih (k + 1) cur ((t.measured cur).sleep 1)

theorem wait_for_images_trace (env : Env) (t : Trace) :
    (wait_for_images env t).2 = t := by
  unfold wait_for_images
  cases env.imagesWait with
  | ok u => rfl
  | error e => cases e <;> rfl

theorem wait_for_dynamic_content_trace (env : Env) (t : Trace) :
    (wait_for_dynamic_content env t).2 = t := by
  unfold wait_for_dynamic_content
  cases env.ajaxWait with
  | error e => rfl
  | ok u =>
    cases env.mutationChanges with
    | error e => rfl
    | ok c => rfl

theorem timeSleep_trace (d : Rat) (t : Trace) :
    (timeSleep d t).2.files = t.files ∧ (timeSleep d t).2.windowSets = t.windowSets := by
  unfold timeSleep
  split <;> exact ⟨rfl, rfl⟩

theorem extraDelay_trace (wt : Option Int) (b1 b2 : Bool) (t : Trace) :
    (extraDelay wt b1 b2 t).2.files = t.files ∧
      (extraDelay wt b1 b2 t).2.windowSets = t.windowSets := by
  unfold extraDelay
  split
  · exact timeSleep_trace _ t
  · exact ⟨rfl, rfl⟩

theorem captureFinish_run (env : Env) (url dir : String) (t : Trace)
    {hm : HeightMetrics} {wm : WidthMetrics} {ttl cu ua : String}
    (h1 : env.heightMetrics = Except.ok hm) (h2 : env.widthMetrics = Except.ok wm)
    (h3 : env.setWindow = Except.ok ()) (h4 : env.saveScreenshot = Except.ok ())
    (h5 : env.title = Except.ok ttl) (h6 : env.currentUrl = Except.ok cu)
    (h7 : env.userAgent = Except.ok ua) (h8 : env.jsonWrite = Except.ok ()) :
    captureFinish env url dir t =
      (Outcome.ok (dir ++ "/" ++ ("snapshot_" ++ env.now) ++ ".png",
                   dir ++ "/" ++ ("snapshot_" ++ env.now) ++ ".json"),
       ((((t.setWin (wm.total + 100, hm.total + 100)).sleep 2).addFile
           (FileEntry.png (dir ++ "/" ++ ("snapshot_" ++ env.now) ++ ".png"))).addFile
           (FileEntry.json (dir ++ "/" ++ ("snapshot_" ++ env.now) ++ ".json")
             (snapshotJson url env.now wm.total hm.total ttl cu ua)))) := by
  unfold captureFinish setWindowStep saveScreenshotStep jsonWriteStep
  rw [h1, h2, h3, h4, h5, h6, h7, h8]
  simp only [liftExc, andThen, timeSleep]
  rw [if_neg (by norm_num : ¬ ((2 : Rat) < 0))]

theorem liftExc_eq_ok {α : Type} {x : Except Exc α} {t : Trace} {a : α} {t1 : Trace}
    (h : liftExc x t = (Outcome.ok a, t1)) : x = Except.ok a ∧ t1 = t := by
  cases x with
  | ok v =>
    simp only [liftExc, Prod.mk.injEq, Outcome.ok.injEq] at h
    exact ⟨by rw [h.1], h.2.symm⟩
  | error e => simp [liftExc] at h

theorem timeSleep_eq_ok {d : Rat} {t : Trace} {a : Unit} {t1 : Trace}
    (h : timeSleep d t = (Outcome.ok a, t1)) : ¬ d < 0 ∧ t1 = t.sleep d := by
  unfold timeSleep at h
  by_cases hd : d < 0
  · rw [if_pos hd] at h; simp at h
  · rw [if_neg hd] at h
    simp only [Prod.mk.injEq] at h
    exact ⟨hd, h.2.symm⟩

theorem setWindowStep_eq_ok {env : Env} {w hh : Nat} {t : Trace} {a : Unit} {t1 : Trace}
    (h : setWindowStep env w hh t = (Outcome.ok a, t1)) :
    env.setWindow = Except.ok () ∧ t1 = t.setWin (w, hh) := by
  unfold setWindowStep at h
  cases hx : env.setWindow with
  | ok u => rw [hx] at h; simp only [Prod.mk.injEq] at h; exact ⟨rfl, h.2.symm⟩
  | error e => rw [hx] at h; simp at h

theorem saveScreenshotStep_eq_ok {env : Env} {p : String} {t : Trace} {a : Unit} {t1 : Trace}
    (h : saveScreenshotStep env p t = (Outcome.ok a, t1)) :
    env.saveScreenshot = Except.ok () ∧ t1 = t.addFile (FileEntry.png p) := by
  unfold saveScreenshotStep at h
  cases hx : env.saveScreenshot with
  | ok u => rw [hx] at h; simp only [Prod.mk.injEq] at h; exact ⟨rfl, h.2.symm⟩
  | error e => rw [hx] at h; simp at h

theorem jsonWriteStep_eq_ok {env : Env} {p : String} {c : JsonValue} {t : Trace}
    {a : Unit} {t1 : Trace}
    (h : jsonWriteStep env p c t = (Outcome.ok a, t1)) :
    env.jsonWrite = Except.ok () ∧ t1 = t.addFile (FileEntry.json p c) := by
  unfold jsonWriteStep at h
  cases hx : env.jsonWrite with
  | ok u => rw [hx] at h; simp only [Prod.mk.injEq] at h; exact ⟨rfl, h.2.symm⟩
  | error e => rw [hx] at h; simp at h

theorem captureFinish_eq_ok {env : Env} {url dir : String} {t : Trace}
    {sp jp : String} {tr : Trace}
    (h : captureFinish env url dir t = (Outcome.ok (sp, jp), tr)) :
    ∃ hm wm ttl cu ua,
      env.heightMetrics = Except.ok hm ∧ env.widthMetrics = Except.ok wm ∧
      sp = dir ++ "/" ++ ("snapshot_" ++ env.now) ++ ".png" ∧
      jp = dir ++ "/" ++ ("snapshot_" ++ env.now) ++ ".json" ∧
      tr = ((((t.setWin (wm.total + 100, hm.total + 100)).sleep 2).addFile
              (FileEntry.png sp)).addFile
              (FileEntry.json jp (snapshotJson url env.now wm.total hm.total ttl cu ua))) := by
  unfold captureFinish at h
  obtain ⟨hmv, t1, hA, h⟩ := andThen_eq_ok h
  obtain ⟨hhm, ht1⟩ := liftExc_eq_ok hA
  try dsimp only at h
  obtain ⟨wmv, t2, hB, h⟩ := andThen_eq_ok h
  obtain ⟨hwm, ht2⟩ := liftExc_eq_ok hB
  try dsimp only at h
  obtain ⟨u3, t3, hC, h⟩ := andThen_eq_ok h
  obtain ⟨hsw, ht3⟩ := setWindowStep_eq_ok hC
  try dsimp only at h
  obtain ⟨u4, t4, hD, h⟩ := andThen_eq_ok h
  obtain ⟨-, ht4⟩ := timeSleep_eq_ok hD
  try dsimp only at h
  obtain ⟨u5, t5, hE, h⟩ := andThen_eq_ok h
  obtain ⟨hss, ht5⟩ := saveScreenshotStep_eq_ok hE
  try dsimp only at h
  obtain ⟨ttl, t6, hF, h⟩ := andThen_eq_ok h
  obtain ⟨httl, ht6⟩ := liftExc_eq_ok hF
  try dsimp only at h
  obtain ⟨cu, t7, hG, h⟩ := andThen_eq_ok h
  obtain ⟨hcu, ht7⟩ := liftExc_eq_ok hG
  try dsimp only at h
  obtain ⟨ua, t8, hH, h⟩ := andThen_eq_ok h
  obtain ⟨hua, ht8⟩ := liftExc_eq_ok hH
  try dsimp only at h
  obtain ⟨u9, t9, hI, h⟩ := andThen_eq_ok h
  obtain ⟨hjw, ht9⟩ := jsonWriteStep_eq_ok hI
  simp only [Prod.mk.injEq, Outcome.ok.injEq] at h
  obtain ⟨⟨hsp, hjp⟩, htr⟩ := h
  subst ht1 ht2 ht3 ht4 ht5 ht6 ht7 ht8 ht9
  refine ⟨hmv, wmv, ttl, cu, ua, hhm, hwm, hsp.symm, hjp.symm, ?_⟩
  rw [← htr, ← hsp, ← hjp]

theorem scrollPass_eq (t : Trace) :
    scrollPass t = { t with scrolls := t.scrolls ++ passScrolls,
                            sleeps := t.sleeps ++ passSleeps } := by
  cases t
  simp [scrollPass, Trace.scroll, Trace.sleep, passScrolls, passSleeps]

theorem scrollLoop_run (env : Env) (s : Nat → Nat)
    (hs : ∀ j, env.scrollHeight j = Except.ok (s j)) :
    ∀ d k fuel t, 1 ≤ k → d < fuel →
      (∀ j, k ≤ j → j < k + d → s j ≠ s (j - 1)) →
      s (k + d) = s (k + d - 1) →
      scrollLoop env fuel (s (k - 1)) k t =
        (Outcome.ok (),
         { t with scrolls := t.scrolls ++ (List.replicate (d + 1) passScrolls).flatten,
                  sleeps := t.sleeps ++ (List.replicate (d + 1) passSleeps).flatten,
                  measures := t.measures ++ (List.range' k (d + 1)).map s }) := by
  intro d
  induction d with
  | zero =>
    intro k fuel t hk hfuel hmiss hhit
    cases fuel with
    | zero => omega
    | succ n =>
      simp only [scrollLoop]
      rw [hs k]
      dsimp only
      rw [if_pos (by simpa using hhit)]
      rw [scrollPass_eq]
      cases t
      simp [Trace.measured, List.range'_succ]
  | succ d ih =>
    intro k fuel t hk hfuel hmiss hhit
    cases fuel with
    | zero => omega
    | succ n =>
      simp only [scrollLoop]
      rw [hs k]
      dsimp only
      have hne : s k ≠ s (k - 1) := hmiss k le_rfl (by omega)
      rw [if_neg hne]
      have harg : k + 1 + d = k + (d + 1) := by omega
      have hrec := ih (k + 1) n ((scrollPass t).measured (s k)) (by omega) (by omega)
        (fun j hj1 hj2 => hmiss j (by omega) (by omega))
        (by rw [harg]; exact hhit)
      simp only [Nat.add_sub_cancel] at hrec
      rw [hrec]
      rw [scrollPass_eq]
      cases t
      simp [Trace.measured, List.replicate_succ, List.range'_succ]

theorem scrollLoop_diverge (env : Env) (s : Nat → Nat)
    (hs : ∀ j, env.scrollHeight j = Except.ok (s j))
    (hg : ∀ j, 1 ≤ j → s j ≠ s (j - 1)) :
    ∀ fuel k t, 1 ≤ k → (scrollLoop env fuel (s (k - 1)) k t).1 = Outcome.diverge := by
  intro fuel
  induction fuel with
  | zero => intro k t hk; rfl
  | succ n ih =>
    intro k t hk
    simp only [scrollLoop]
    rw [hs k]
    dsimp only
    rw [if_neg (hg k hk)]
    exact ih (k + 1) ((scrollPass t).measured (s k)) (by omega)

theorem scroll_to_bottom_run (env : Env) (s : Nat → Nat)
    (hs : ∀ j, env.scrollHeight j = Except.ok (s j))
    (K fuel : Nat) (t : Trace) (hK : 1 ≤ K)
    (hfix : s K = s (K - 1))
    (hmiss : ∀ j, 1 ≤ j → j < K → s j ≠ s (j - 1))
    (hfuel : K ≤ fuel) :
    scroll_to_bottom env fuel t =
      (Outcome.ok (),
       { t with scrolls := t.scrolls ++ (List.replicate K passScrolls).flatten
                  ++ [ScrollTarget.toTop],
                sleeps := t.sleeps ++ (List.replicate K passSleeps).flatten,
                measures := t.measures ++ (List.range (K + 1)).map s }) := by
  unfold scroll_to_bottom
  rw [hs 0]
  dsimp only
  have hd : K - 1 + 1 = K := by omega
  have hrun := scrollLoop_run env s hs (K - 1) 1 fuel (t.measured (s 0)) le_rfl
    (by omega) (fun j hj1 hj2 => hmiss j hj1 (by omega))
    (by have h1 : 1 + (K - 1) = K := by omega
        rw [h1]; exact hfix)
  rw [show s (1 - 1) = s 0 from rfl] at hrun
  rw [hrun]
  cases t
  simp [Trace.measured, Trace.scroll, hd, List.range_eq_range', List.range'_succ,
    List.append_assoc]

theorem scroll_to_bottom_diverge (env : Env) (s : Nat → Nat)
    (hs : ∀ j, env.scrollHeight j = Except.ok (s j))
    (hg : ∀ j, 1 ≤ j → s j ≠ s (j - 1))
    (fuel : Nat) (t : Trace) :
    (scroll_to_bottom env fuel t).1 = Outcome.diverge := by
  unfold scroll_to_bottom
  rw [hs 0]
  dsimp only
  have hdiv := scrollLoop_diverge env s hs hg fuel 1 (t.measured (s 0)) le_rfl
  rw [show s (1 - 1) = s 0 from rfl] at hdiv
  rcases hL : scrollLoop env fuel (s 0) 1 (t.measured (s 0)) with ⟨o, t2⟩
  rw [hL] at hdiv
  simp only at hdiv
  subst hdiv
  rfl

theorem stableLoop_miss_all (env : Env) (s : Nat → Nat)
    (hs : ∀ j, env.stableHeight j = Except.ok (s j)) :
    ∀ r k last t,
      (∀ j, j < r → s (k + j) ≠ (if j = 0 then last else s (k + j - 1))) →
      stableLoop env r k last t =
        (Outcome.ok false,
         { t with measures := t.measures ++ (List.range' k r).map s,
                  sleeps := t.sleeps ++ List.replicate r 1 }) := by
  intro r
  induction r with
  | zero => intro k last t _; cases t; simp [stableLoop]
  | succ n ih =>
    intro k last t hmiss
    simp only [stableLoop]
    rw [hs k]
    dsimp only
    have h0 : s k ≠ last := by simpa using hmiss 0 (by omega)
    rw [if_neg h0]
    have hrec := ih (k + 1) (s k) ((t.measured (s k)).sleep 1) ?_
    · rw [hrec]
      cases t
      simp [Trace.measured, Trace.sleep, List.range'_succ, List.replicate_succ,
        List.append_assoc]
    · intro j hj
      have h2 := hmiss (j + 1) (by omega)
      rw [if_neg (by omega : ¬ (j + 1 = 0))] at h2
      cases j with
      | zero => simpa using h2
      | succ m =>
        rw [if_neg (by omega : ¬ (m + 1 = 0))]
        have e1 : k + 1 + (m + 1) = k + (m + 1 + 1) := by omega
        have e2 : k + 1 + (m + 1) - 1 = k + (m + 1 + 1) - 1 := by omega
        rw [e1]
        exact h2

theorem stableLoop_hit (env : Env) (s : Nat → Nat)
    (hs : ∀ j, env.stableHeight j = Except.ok (s j)) :
    ∀ d r k last t, d < r →
      (∀ j, j < d → s (k + j) ≠ (if j = 0 then last else s (k + j - 1))) →
      s (k + d) = (if d = 0 then last else s (k + d - 1)) →
      stableLoop env r k last t =
        (Outcome.ok true,
         { t with measures := t.measures ++ (List.range' k (d + 1)).map s,
                  sleeps := t.sleeps ++ List.replicate d 1 ++ [2] }) := by
  intro d
  induction d with
  | zero =>
    intro r k last t hr _ hhit
    cases r with
    | zero => omega
    | succ n =>
      simp only [stableLoop]
      rw [hs k]
      dsimp only
      rw [if_pos (by simpa using hhit)]
      cases t
      simp [Trace.measured, Trace.sleep, List.range'_succ]
  | succ d ih =>
    intro r k last t hr hmiss hhit
    cases r with
    | zero => omega
    | succ n =>
      simp only [stableLoop]
      rw [hs k]
      dsimp only
      have h0 : s k ≠ last := by simpa using hmiss 0 (by omega)
      rw [if_neg h0]
      have hrec := ih n (k + 1) (s k) ((t.measured (s k)).sleep 1) (by omega) ?_ ?_
      · rw [hrec]
        cases t
        simp [Trace.measured, Trace.sleep, List.range'_succ, List.replicate_succ,
          List.append_assoc]
      · intro j hj
        have h2 := hmiss (j + 1) (by omega)
        rw [if_neg (by omega : ¬ (j + 1 = 0))] at h2
        cases j with
        | zero => simpa using h2
        | succ m =>
          rw [if_neg (by omega : ¬ (m + 1 = 0))]
          have e1 : k + 1 + (m + 1) = k + (m + 1 + 1) := by omega
          rw [e1]
          exact h2
      · have h2 := hhit
        rw [if_neg (by omega : ¬ (d + 1 = 0))] at h2
        cases d with
        | zero => simpa using h2
        | succ m =>
          rw [if_neg (by omega : ¬ (m + 1 = 0))]
          have e1 : k + 1 + (m + 1) = k + (m + 1 + 1) := by omega
          rw [e1]
          exact h2

theorem prevSample_eq (s : Nat → Nat) (j : Nat) :
    prevSample s j = if j = 0 then 0 else s (j - 1) := by
  cases j <;> simp [prevSample]

theorem wait_for_dynamic_content_ok (env : Env) (t : Trace) :
    ∃ b, wait_for_dynamic_content env t = (Outcome.ok b, t) := by
  unfold wait_for_dynamic_content
  cases env.ajaxWait with
  | error e => exact ⟨false, rfl⟩
  | ok u =>
    cases env.mutationChanges with
    | error e => exact ⟨false, rfl⟩
    | ok c => exact ⟨_, rfl⟩

theorem extraDelay_some (n : Int) (b1 b2 : Bool) (t : Trace) :
    extraDelay (some n) b1 b2 t = timeSleep (n : Rat) t := by
  simp [extraDelay]

theorem extraDelay_none (b1 b2 : Bool) (t : Trace) :
    extraDelay none b1 b2 t =
      (Outcome.ok (), if b1 && b2 then t else t.sleep 3) := by
  unfold extraDelay timeSleep
  cases b1 <;> cases b2 <;> simp

theorem capture_eq_ok {env : Env} {url dir : String} {wt : Option Int} {fuel : Nat}
    {sp jp : String} {tr : Trace}
    (h : capture_screenshot env url dir wt fuel = (Outcome.ok (some (sp, jp)), tr)) :
    ∃ hm wm ttl cu ua,
      env.heightMetrics = Except.ok hm ∧ env.widthMetrics = Except.ok wm ∧
      sp = dir ++ "/" ++ ("snapshot_" ++ env.now) ++ ".png" ∧
      jp = dir ++ "/" ++ ("snapshot_" ++ env.now) ++ ".json" ∧
      tr.files = [FileEntry.png sp,
        FileEntry.json jp (snapshotJson url env.now wm.total hm.total ttl cu ua)] ∧
      tr.windowSets = [(wm.total + 100, hm.total + 100)] := by
  unfold capture_screenshot at h
  rcases hB : captureBody env url dir wt fuel Trace.empty with ⟨o, tB⟩
  rw [hB] at h
  cases o with
  | exc e => simp at h
  | diverge => simp at h
  | ok p =>
    simp only [Prod.mk.injEq, Outcome.ok.injEq, Option.some.injEq] at h
    obtain ⟨hp, htB⟩ := h
    subst hp
    subst htB
    unfold captureBody at hB
    obtain ⟨u1, t1, hA, hB⟩ := andThen_eq_ok hB
    obtain ⟨hnav, ht1⟩ := liftExc_eq_ok hA
    try dsimp only at hB
    obtain ⟨u2, t2, hC, hB⟩ := andThen_eq_ok hB
    obtain ⟨hbody, ht2⟩ := liftExc_eq_ok hC
    try dsimp only at hB
    obtain ⟨u3, t3, hD, hB⟩ := andThen_eq_ok hB
    try dsimp only at hB
    obtain ⟨b1, t4, hE, hB⟩ := andThen_eq_ok hB
    try dsimp only at hB
    obtain ⟨u5, t5, hF, hB⟩ := andThen_eq_ok hB
    try dsimp only at hB
    obtain ⟨b2, t6, hG, hB⟩ := andThen_eq_ok hB
    try dsimp only at hB
    obtain ⟨u7, t7, hH, hB⟩ := andThen_eq_ok hB
    try dsimp only at hB
    obtain ⟨hm, wm, ttl, cu, ua, hhm, hwm, hsp, hjp, htr⟩ := captureFinish_eq_ok hB
    refine ⟨hm, wm, ttl, cu, ua, hhm, hwm, hsp, hjp, ?_, ?_⟩
    · rw [htr]
      have e3 : t3.files = Trace.empty.files := by
        have hpres := scroll_to_bottom_trace env fuel t2
        rw [hD] at hpres
        rw [hpres.1, ht2, ht1]
      have e4 : t4.files = t3.files := by
        have hpres := stableLoop_trace env 10 0 0 t3
        rw [show stableLoop env 10 0 0 t3 = wait_for_content_stable env 10 t3 from rfl,
          hE] at hpres
        exact hpres.1
      have e5 : t5.files = t4.files := by
        have hpres : t5 = t4 := by
          have h9 := wait_for_images_trace env t4
          rw [hF] at h9
          exact h9
        rw [hpres]
      have e6 : t6.files = t5.files := by
        have hpres : t6 = t5 := by
          have h9 := wait_for_dynamic_content_trace env t5
          rw [hG] at h9
          exact h9
        rw [hpres]
      have e7 : t7.files = t6.files := by
        have hpres := extraDelay_trace wt b1 b2 t6
        rw [hH] at hpres
        exact hpres.1
      have : t7.files = [] := by rw [e7, e6, e5, e4, e3]; rfl
      simp [Trace.addFile, Trace.sleep, Trace.setWin, this]
    · rw [htr]
      have e3 : t3.windowSets = Trace.empty.windowSets := by
        have hpres := scroll_to_bottom_trace env fuel t2
        rw [hD] at hpres
        rw [hpres.2, ht2, ht1]
      have e4 : t4.windowSets = t3.windowSets := by
        have hpres := stableLoop_trace env 10 0 0 t3
        rw [show stableLoop env 10 0 0 t3 = wait_for_content_stable env 10 t3 from rfl,
          hE] at hpres
        exact hpres.2
      have e5 : t5.windowSets = t4.windowSets := by
        have hpres : t5 = t4 := by
          have h9 := wait_for_images_trace env t4
          rw [hF] at h9
          exact h9
        rw [hpres]
      have e6 : t6.windowSets = t5.windowSets := by
        have hpres : t6 = t5 := by
          have h9 := wait_for_dynamic_content_trace env t5
          rw [hG] at h9
          exact h9
        rw [hpres]
      have e7 : t7.windowSets = t6.windowSets := by
        have hpres := extraDelay_trace wt b1 b2 t6
        rw [hH] at hpres
        exact hpres.2
      have : t7.windowSets = [] := by rw [e7, e6, e5, e4, e3]; rfl
      simp [Trace.addFile, Trace.sleep, Trace.setWin, this]

theorem liftExc_trace {α : Type} (x : Except Exc α) (t : Trace) :
    (liftExc x t).2 = t := by
  cases x <;> rfl

theorem captureBody_neg_wait (env : Env) (url dir : String) (fuel : Nat) (n : Int)
    (hn : n < 0) (t : Trace) :
    ((captureBody env url dir (some n) fuel t).1 = Outcome.diverge ∨
      ∃ e, (captureBody env url dir (some n) fuel t).1 = Outcome.exc e) ∧
    (captureBody env url dir (some n) fuel t).2.files = t.files := by
  unfold captureBody
  rcases hA : liftExc env.navGet t with ⟨o1, t1⟩
  have ht1 : t1 = t := by
    have h9 := liftExc_trace env.navGet t
    rw [hA] at h9
    exact h9
  cases o1 with
  | exc e => exact ⟨Or.inr ⟨e, rfl⟩, by rw [andThen, ht1]⟩
  | diverge => exact ⟨Or.inl rfl, by rw [andThen, ht1]⟩
  | ok u1 =>
    rw [andThen]
    rcases hB : liftExc env.bodyWait t1 with ⟨o2, t2⟩
    have ht2 : t2 = t1 := by
      have h9 := liftExc_trace env.bodyWait t1
      rw [hB] at h9
      exact h9
    cases o2 with
    | exc e => exact ⟨Or.inr ⟨e, rfl⟩, by rw [andThen, ht2, ht1]⟩
    | diverge => exact ⟨Or.inl rfl, by rw [andThen, ht2, ht1]⟩
    | ok u2 =>
      rw [andThen]
      rcases hC : scroll_to_bottom env fuel t2 with ⟨o3, t3⟩
      have ht3 : t3.files = t2.files := by
        have h9 := scroll_to_bottom_trace env fuel t2
        rw [hC] at h9
        exact h9.1
      cases o3 with
      | exc e => exact ⟨Or.inr ⟨e, rfl⟩, by rw [andThen]; rw [ht3, ht2, ht1]⟩
      | diverge => exact ⟨Or.inl rfl, by rw [andThen]; rw [ht3, ht2, ht1]⟩
      | ok u3 =>
        rw [andThen]
        rcases hD : wait_for_content_stable env 10 t3 with ⟨o4, t4⟩
        have ht4 : t4.files = t3.files := by
          have h9 := stableLoop_trace env 10 0 0 t3
          rw [show stableLoop env 10 0 0 t3 = wait_for_content_stable env 10 t3 from rfl,
            hD] at h9
          exact h9.1
        cases o4 with
        | exc e => exact ⟨Or.inr ⟨e, rfl⟩, by rw [andThen]; rw [ht4, ht3, ht2, ht1]⟩
        | diverge => exact ⟨Or.inl rfl, by rw [andThen]; rw [ht4, ht3, ht2, ht1]⟩
        | ok b1 =>
          rw [andThen]
          rcases hE : wait_for_images env t4 with ⟨o5, t5⟩
          have ht5 : t5 = t4 := by
            have h9 := wait_for_images_trace env t4
            rw [hE] at h9
            exact h9
          cases o5 with
          | exc e =>
            exact ⟨Or.inr ⟨e, rfl⟩, by rw [andThen]; rw [ht5, ht4, ht3, ht2, ht1]⟩
          | diverge =>
            exact ⟨Or.inl rfl, by rw [andThen]; rw [ht5, ht4, ht3, ht2, ht1]⟩
          | ok u5 =>
            rw [andThen]
            rcases hF : wait_for_dynamic_content env t5 with ⟨o6, t6⟩
            have ht6 : t6 = t5 := by
              have h9 := wait_for_dynamic_content_trace env t5
              rw [hF] at h9
              exact h9
            cases o6 with
            | exc e =>
              exact ⟨Or.inr ⟨e, rfl⟩,
                by rw [andThen]; rw [ht6, ht5, ht4, ht3, ht2, ht1]⟩
            | diverge =>
              exact ⟨Or.inl rfl,
                by rw [andThen]; rw [ht6, ht5, ht4, ht3, ht2, ht1]⟩
            | ok b2 =>
              rw [andThen]
              have hdelay : extraDelay (some n) b1 b2 t6 =
                  (Outcome.exc Exc.valueError, t6) := by
                rw [extraDelay_some]
                unfold timeSleep
                rw [if_pos (by exact_mod_cast hn)]
              rw [hdelay, andThen]
              exact ⟨Or.inr ⟨Exc.valueError, rfl⟩,
                by rw [ht6, ht5, ht4, ht3, ht2, ht1]⟩

/-- C3: if the initial navigation or the body-presence wait raises
`TimeoutException`, `capture_screenshot` returns the failure sentinel
`None` and no file is written (indeed no effect at all is performed). -/
theorem nav_timeout_no_output (env : Env) (url dir : String) (wt : Option Int)
    (fuel : Nat)
    (h : env.navGet = Except.error Exc.timeoutException ∨
      (env.navGet = Except.ok () ∧ env.bodyWait = Except.error Exc.timeoutException)) :
    capture_screenshot env url dir wt fuel = (Outcome.ok none, Trace.empty) := by
  rcases h with h1 | ⟨h1, h2⟩
  · unfold capture_screenshot captureBody
    rw [h1]
    simp [liftExc, andThen]
  · unfold capture_screenshot captureBody
    rw [h1, h2]
    simp [liftExc, andThen]

/-- Witness for C3 at a concrete environment whose navigation times out. -/
theorem nav_timeout_no_output_witness :
    capture_screenshot envNavTimeout "http://example.com" "out" none 3 =
      (Outcome.ok none, Trace.empty) :=
  nav_timeout_no_output envNavTimeout "http://example.com" "out" none 3 (Or.inl rfl)

/-- C4: in the extra-delay step (lines 242-245), a supplied non-negative
`wait_time = N` always causes a sleep of exactly N seconds regardless of
the stability results, and an absent `wait_time` causes a 3-second sleep
if and only if one of the two checks reported not-stable. -/
theorem extra_delay_behavior (wait_time : Option Int) (n : Int)
    (content_stable dynamic_content_loaded : Bool) (t : Trace) :
    (wait_time = some n → 0 ≤ n →
      extraDelay wait_time content_stable dynamic_content_loaded t =
        (Outcome.ok (), t.sleep (n : Rat))) ∧
    (wait_time = none →
      extraDelay wait_time content_stable dynamic_content_loaded t =
        (Outcome.ok (),
         if content_stable && dynamic_content_loaded then t else t.sleep 3)) := by
  constructor
  · intro hw hn
    subst hw
    rw [extraDelay_some]
    unfold timeSleep
    rw [if_neg (not_lt.mpr (by exact_mod_cast hn))]
  · intro hw
    subst hw
    exact extraDelay_none content_stable dynamic_content_loaded t

/-- Witness for C4: a supplied wait time of 2 s sleeps exactly 2 s even
though both checks were stable; an absent wait time with an unstable check
sleeps 3 s. -/
theorem extra_delay_behavior_witness :
    extraDelay (some 2) true true Trace.empty = (Outcome.ok (), Trace.empty.sleep 2) ∧
    extraDelay none true false Trace.empty = (Outcome.ok (), Trace.empty.sleep 3) := by
  constructor
  · have h := (extra_delay_behavior (some 2) 2 true true Trace.empty).1 rfl (by norm_num)
    simpa using h
  · have h := (extra_delay_behavior none 2 true false Trace.empty).2 rfl
    simpa using h

/-- C10: argparse passes any integer `--wait-time` through unvalidated;
for every negative wait time the extra-delay branch is taken and
`time.sleep` raises `ValueError`, which the generic handler catches, so
`capture_screenshot` returns `None` (or the scroll loop diverges first)
and no output file is ever written. -/
theorem negative_wait_time_failure (env : Env) (url dir : String) (fuel : Nat)
    (n : Int) (hn : n < 0) :
    mainWaitTime (some n) = some n ∧
    (∀ b1 b2 t, extraDelay (some n) b1 b2 t = (Outcome.exc Exc.valueError, t)) ∧
    ((capture_screenshot env url dir (some n) fuel).1 = Outcome.ok none ∨
      (capture_screenshot env url dir (some n) fuel).1 = Outcome.diverge) ∧
    (capture_screenshot env url dir (some n) fuel).2.files = [] := by
  refine ⟨rfl, ?_, ?_, ?_⟩
  · intro b1 b2 t
    rw [extraDelay_some]
    unfold timeSleep
    rw [if_pos (by exact_mod_cast hn)]
  · have h := captureBody_neg_wait env url dir fuel n hn Trace.empty
    unfold capture_screenshot
    rcases hB : captureBody env url dir (some n) fuel Trace.empty with ⟨o, t⟩
    rw [hB] at h
    rcases h.1 with hd | ⟨e, he⟩
    · simp only at hd
      subst hd
      exact Or.inr rfl
    · simp only at he
      subst he
      exact Or.inl rfl
  · have h := captureBody_neg_wait env url dir fuel n hn Trace.empty
    unfold capture_screenshot
    rcases hB : captureBody env url dir (some n) fuel Trace.empty with ⟨o, t⟩
    rw [hB] at h
    have hf : t.files = [] := h.2
    rcases h.1 with hd | ⟨e, he⟩
    · simp only at hd
      subst hd
      exact hf
    · simp only at he
      subst he
      exact hf

/-- Witness for C10 at wait time -1 on an otherwise successful capture. -/
theorem negative_wait_time_failure_witness :
    extraDelay (some (-1)) true true Trace.empty =
      (Outcome.exc Exc.valueError, Trace.empty) ∧
    ((capture_screenshot envOK "http://example.com" "out" (some (-1)) 3).1 =
        Outcome.ok none ∨
      (capture_screenshot envOK "http://example.com" "out" (some (-1)) 3).1 =
        Outcome.diverge) ∧
    (capture_screenshot envOK "http://example.com" "out" (some (-1)) 3).2.files = [] := by
  have h := negative_wait_time_failure envOK "http://example.com" "out" 3 (-1)
    (by norm_num)
  exact ⟨h.2.1 true true Trace.empty, h.2.2.1, h.2.2.2⟩

/-- C1 counterexample: in a run where every call succeeds except that
reading `driver.title` fails — after `save_screenshot` has already
written the PNG — `capture_screenshot` returns `None` yet exactly one of
the pair (the PNG alone) has been written to the output directory. -/
theorem capture_one_file_only_cex :
    (capture_screenshot envTitleErr "http://example.com" "out" none 3).1 =
      Outcome.ok none ∧
    (capture_screenshot envTitleErr "http://example.com" "out" none 3).2.files =
      [FileEntry.png "out/snapshot_20250102_030405.png"] :=
  ⟨rfl, rfl⟩

/-- C1 amended: whenever `capture_screenshot` returns the pair of paths,
the PNG and the JSON sidecar are both written and share the timestamp
stem `snapshot_<timestamp>`; atomicity holds only on this success path —
an exception between the screenshot save and the JSON write leaves the
PNG alone on disk. -/
theorem capture_pair_on_success (env : Env) (url dir : String) (wt : Option Int)
    (fuel : Nat) (sp jp : String) (tr : Trace)
    (h : capture_screenshot env url dir wt fuel = (Outcome.ok (some (sp, jp)), tr)) :
    sp = dir ++ "/" ++ ("snapshot_" ++ env.now) ++ ".png" ∧
    jp = dir ++ "/" ++ ("snapshot_" ++ env.now) ++ ".json" ∧
    ∃ c, tr.files = [FileEntry.png sp, FileEntry.json jp c] := by
  obtain ⟨hm, wm, ttl, cu, ua, _, _, hsp, hjp, hfiles, _⟩ := capture_eq_ok h
  exact ⟨hsp, hjp, _, hfiles⟩

/-- Witness for the amended C1 at a fully successful concrete run. -/
theorem capture_pair_on_success_witness :
    "out/snapshot_20250102_030405.png" =
        "out" ++ "/" ++ ("snapshot_" ++ envOK.now) ++ ".png" ∧
    "out/snapshot_20250102_030405.json" =
        "out" ++ "/" ++ ("snapshot_" ++ envOK.now) ++ ".json" ∧
    ∃ c, (capture_screenshot envOK "http://example.com" "out" none 3).2.files =
      [FileEntry.png "out/snapshot_20250102_030405.png",
       FileEntry.json "out/snapshot_20250102_030405.json" c] :=
  capture_pair_on_success envOK "http://example.com" "out" none 3
    "out/snapshot_20250102_030405.png" "out/snapshot_20250102_030405.json"
    (capture_screenshot envOK "http://example.com" "out" none 3).2 rfl

/-- C7: on every successful capture the JSON sidecar's url field equals
the URL passed in, character for character, and its timestamp field is
the stem embedded in both output filenames. -/
theorem json_roundtrip_url_timestamp (env : Env) (url dir : String)
    (wt : Option Int) (fuel : Nat) (sp jp : String) (tr : Trace)
    (h : capture_screenshot env url dir wt fuel = (Outcome.ok (some (sp, jp)), tr)) :
    sp = dir ++ "/" ++ ("snapshot_" ++ env.now) ++ ".png" ∧
    jp = dir ++ "/" ++ ("snapshot_" ++ env.now) ++ ".json" ∧
    ∃ c, FileEntry.json jp c ∈ tr.files ∧
      c.lookupField "url" = some (JsonValue.str url) ∧
      c.lookupField "timestamp" = some (JsonValue.str env.now) := by
  obtain ⟨hm, wm, ttl, cu, ua, _, _, hsp, hjp, hfiles, _⟩ := capture_eq_ok h
  refine ⟨hsp, hjp, snapshotJson url env.now wm.total hm.total ttl cu ua, ?_, rfl, rfl⟩
  rw [hfiles]
  simp

/-- Witness for C7 at a fully successful concrete run. -/
theorem json_roundtrip_url_timestamp_witness :
    "out/snapshot_20250102_030405.png" =
        "out" ++ "/" ++ ("snapshot_" ++ envOK.now) ++ ".png" ∧
    "out/snapshot_20250102_030405.json" =
        "out" ++ "/" ++ ("snapshot_" ++ envOK.now) ++ ".json" ∧
    ∃ c, FileEntry.json "out/snapshot_20250102_030405.json" c ∈
        (capture_screenshot envOK "http://example.com" "out" none 3).2.files ∧
      c.lookupField "url" = some (JsonValue.str "http://example.com") ∧
      c.lookupField "timestamp" = some (JsonValue.str envOK.now) :=
  json_roundtrip_url_timestamp envOK "http://example.com" "out" none 3
    "out/snapshot_20250102_030405.png" "out/snapshot_20250102_030405.json"
    (capture_screenshot envOK "http://example.com" "out" none 3).2 rfl

/-- C6: the dimensions recorded in the sidecar are the measured page
width and height (each the maximum of the five body/documentElement
metrics, see `WidthMetrics.total` and `HeightMetrics.total`), and the
window size set for the screenshot is exactly those measurements plus 100
pixels in each axis. -/
theorem dimensions_viewport_margin (env : Env) (url dir : String)
    (wt : Option Int) (fuel : Nat) (sp jp : String) (tr : Trace)
    (hm : HeightMetrics) (wm : WidthMetrics)
    (h1 : env.heightMetrics = Except.ok hm) (h2 : env.widthMetrics = Except.ok wm)
    (h : capture_screenshot env url dir wt fuel = (Outcome.ok (some (sp, jp)), tr)) :
    tr.windowSets = [(wm.total + 100, hm.total + 100)] ∧
    ∃ c, FileEntry.json jp c ∈ tr.files ∧
      c.lookupField "dimensions" =
        some (JsonValue.obj
          [("width", JsonValue.num wm.total), ("height", JsonValue.num hm.total)]) := by
  obtain ⟨hm2, wm2, ttl, cu, ua, hhm, hwm, hsp, hjp, hfiles, hwin⟩ := capture_eq_ok h
  rw [h1] at hhm
  rw [h2] at hwm
  obtain hmEq : hm = hm2 := by
    have := hhm
    simp only [Except.ok.injEq] at this
    exact this
  obtain wmEq : wm = wm2 := by
    have := hwm
    simp only [Except.ok.injEq] at this
    exact this
  subst hmEq
  subst wmEq
  refine ⟨hwin, snapshotJson url env.now wm.total hm.total ttl cu ua, ?_, rfl⟩
  rw [hfiles]
  simp

/-- Witness for C6 at a fully successful concrete run (measured width
1000 and height 900; window set to 1100 by 1000). -/
theorem dimensions_viewport_margin_witness :
    (capture_screenshot envOK "http://example.com" "out" none 3).2.windowSets =
      [((WidthMetrics.mk 800 790 1000 800 790).total + 100,
        (HeightMetrics.mk 600 580 900 600 580).total + 100)] ∧
    ∃ c, FileEntry.json "out/snapshot_20250102_030405.json" c ∈
        (capture_screenshot envOK "http://example.com" "out" none 3).2.files ∧
      c.lookupField "dimensions" =
        some (JsonValue.obj
          [("width", JsonValue.num (WidthMetrics.mk 800 790 1000 800 790).total),
           ("height", JsonValue.num (HeightMetrics.mk 600 580 900 600 580).total)]) :=
  dimensions_viewport_margin envOK "http://example.com" "out" none 3
    "out/snapshot_20250102_030405.png" "out/snapshot_20250102_030405.json"
    (capture_screenshot envOK "http://example.com" "out" none 3).2
    (HeightMetrics.mk 600 580 900 600 580) (WidthMetrics.mk 800 790 1000 800 790)
    rfl rfl rfl

/-- C9 counterexample: the metadata object persisted by a successful
capture carries the snake-case key `user_agent`; there is no `userAgent`
key anywhere in it, contradicting the claimed schema. -/
theorem json_user_agent_key_cex :
    (capture_screenshot envOK "http://example.com" "out" none 3).2.files =
      [FileEntry.png "out/snapshot_20250102_030405.png",
       FileEntry.json "out/snapshot_20250102_030405.json"
         (snapshotJson "http://example.com" "20250102_030405" 1000 900
           "Example Page" "http://example.com/" "TestUA/1.0")] ∧
    (snapshotJson "http://example.com" "20250102_030405" 1000 900
        "Example Page" "http://example.com/" "TestUA/1.0").lookupField "metadata" =
      some (JsonValue.obj
        [("title", JsonValue.str "Example Page"),
         ("url", JsonValue.str "http://example.com/"),
         ("user_agent", JsonValue.str "TestUA/1.0")]) ∧
    (JsonValue.obj
        [("title", JsonValue.str "Example Page"),
         ("url", JsonValue.str "http://example.com/"),
         ("user_agent", JsonValue.str "TestUA/1.0")]).keys =
      ["title", "url", "user_agent"] ∧
    (JsonValue.obj
        [("title", JsonValue.str "Example Page"),
         ("url", JsonValue.str "http://example.com/"),
         ("user_agent", JsonValue.str "TestUA/1.0")]).lookupField "userAgent" =
      none :=
  ⟨rfl, rfl, rfl, rfl⟩

/-- C9 amended: the sidecar follows the schema {url, timestamp,
dimensions: {width, height}, metadata: {title, url, user_agent}} — the
user-agent key is snake-case `user_agent`, not `userAgent` — and is
written with utf-8 encoding, `ensure_ascii=False` and `indent=2`. -/
theorem json_schema_keys (env : Env) (url dir : String) (wt : Option Int)
    (fuel : Nat) (sp jp : String) (tr : Trace)
    (h : capture_screenshot env url dir wt fuel = (Outcome.ok (some (sp, jp)), tr)) :
    (∃ c, FileEntry.json jp c ∈ tr.files ∧
      c.keys = ["url", "timestamp", "dimensions", "metadata"] ∧
      (∃ d, c.lookupField "dimensions" = some d ∧ d.keys = ["width", "height"]) ∧
      (∃ m, c.lookupField "metadata" = some m ∧
        m.keys = ["title", "url", "user_agent"] ∧
        m.lookupField "userAgent" = none)) ∧
    snapshotDumpOptions = JsonDumpOptions.mk "utf-8" false 2 := by
  obtain ⟨hm, wm, ttl, cu, ua, _, _, hsp, hjp, hfiles, _⟩ := capture_eq_ok h
  refine ⟨⟨snapshotJson url env.now wm.total hm.total ttl cu ua, ?_, rfl, ⟨_, rfl, rfl⟩,
    ⟨_, rfl, rfl, rfl⟩⟩, rfl⟩
  rw [hfiles]
  simp

/-- Witness for the amended C9 at a fully successful concrete run. -/
theorem json_schema_keys_witness :
    (∃ c, FileEntry.json "out/snapshot_20250102_030405.json" c ∈
        (capture_screenshot envOK "http://example.com" "out" none 3).2.files ∧
      c.keys = ["url", "timestamp", "dimensions", "metadata"] ∧
      (∃ d, c.lookupField "dimensions" = some d ∧ d.keys = ["width", "height"]) ∧
      (∃ m, c.lookupField "metadata" = some m ∧
        m.keys = ["title", "url", "user_agent"] ∧
        m.lookupField "userAgent" = none)) ∧
    snapshotDumpOptions = JsonDumpOptions.mk "utf-8" false 2 :=
  json_schema_keys envOK "http://example.com" "out" none 3
    "out/snapshot_20250102_030405.png" "out/snapshot_20250102_030405.json"
    (capture_screenshot envOK "http://example.com" "out" none 3).2 rfl

/-- C8 counterexample: with page heights 0, 1, 2, ... no two consecutive
samples are ever equal, yet `wait_for_content_stable` returns `True`
after a single sample, because the first sample (0) equals the initial
comparison value `last_height = 0`. -/
theorem stable_first_sample_zero_cex :
    wait_for_content_stable envRampHeights 10 Trace.empty =
      (Outcome.ok true, Trace.mk [2] [] [0] [] []) ∧
    hasConsecutiveEqual [0] = false ∧
    hasConsecutiveEqual ((List.range 10).map (fun k => k)) = false :=
  ⟨rfl, rfl, rfl⟩

theorem wait_stable_char (env : Env) (s : Nat → Nat)
    (hs : ∀ k, env.stableHeight k = Except.ok (s k)) (t : Trace) :
    ((∀ j, j < 10 → s j ≠ prevSample s j) →
      wait_for_content_stable env 10 t =
        (Outcome.ok false,
         { t with measures := t.measures ++ (List.range 10).map s,
                  sleeps := t.sleeps ++ List.replicate 10 1 })) ∧
    (∀ d, d < 10 → (∀ j, j < d → s j ≠ prevSample s j) → s d = prevSample s d →
      wait_for_content_stable env 10 t =
        (Outcome.ok true,
         { t with measures := t.measures ++ (List.range (d + 1)).map s,
                  sleeps := t.sleeps ++ List.replicate d 1 ++ [2] })) := by
  constructor
  · intro hmiss
    unfold wait_for_content_stable
    rw [List.range_eq_range']
    exact stableLoop_miss_all env s hs 10 0 0 t (fun j hj => by
      have h2 := hmiss j hj
      rw [prevSample_eq] at h2
      simpa using h2)
  · intro d hd hmiss hhit
    unfold wait_for_content_stable
    rw [List.range_eq_range']
    exact stableLoop_hit env s hs d 10 0 0 t hd
      (fun j hj => by
        have h2 := hmiss j hj
        rw [prevSample_eq] at h2
        simpa using h2)
      (by
        have h2 := hhit
        rw [prevSample_eq] at h2
        simpa using h2)

/-- C8 amended: `wait_for_content_stable` samples the height once per
second for at most ten samples; it returns `True` after a 2-second
confirmation sleep as soon as a sample equals the previous sample — where
the first sample is compared against the initial value 0, so a first
sample of height 0 returns `True` immediately — and returns `False` after
ten samples (ten 1-second sleeps) when no sample matches its
predecessor. -/
theorem stable_poll_characterization (env : Env) (s : Nat → Nat)
    (hs : ∀ k, env.stableHeight k = Except.ok (s k)) (t : Trace) :
    ((∀ j, j < 10 → s j ≠ prevSample s j) →
      wait_for_content_stable env 10 t =
        (Outcome.ok false,
         { t with measures := t.measures ++ (List.range 10).map s,
                  sleeps := t.sleeps ++ List.replicate 10 1 })) ∧
    (∀ d, d < 10 → (∀ j, j < d → s j ≠ prevSample s j) → s d = prevSample s d →
      wait_for_content_stable env 10 t =
        (Outcome.ok true,
         { t with measures := t.measures ++ (List.range (d + 1)).map s,
                  sleeps := t.sleeps ++ List.replicate d 1 ++ [2] })) :=
  wait_stable_char env s hs t

/-- Witness for the amended C8: constant height 600 gives a first sample
different from 0 and a second sample equal to the first, so the poll
returns `True` after two samples, one 1-second sleep and the 2-second
confirmation sleep. -/
theorem stable_poll_characterization_witness :
    wait_for_content_stable envOK 10 Trace.empty =
      (Outcome.ok true, Trace.mk [1, 2] [] [600, 600] [] []) := by
  have h := (stable_poll_characterization envOK (fun _ => 600) (fun k => rfl)
      Trace.empty).2 1 (by omega)
    (fun j hj => by
      have hj0 : j = 0 := by omega
      subst hj0
      simp only [prevSample]
      decide)
    rfl
  simpa [Trace.empty] using h

/-- C5: each scroll pass issues exactly the ten scroll commands — the
nine intermediate fractions i/10 for i = 1..9 followed by the bottom —
with the pauses `passSleeps` (0.5 s between increments, 2 s at the
bottom); the loop stops exactly at the first pass whose measured height
equals the previous measurement, then scrolls back to the top; and since
there is no bound on the number of passes, a strictly growing height
sequence makes the loop diverge for every fuel. -/
theorem scroll_to_bottom_behavior (env : Env) (s : Nat → Nat)
    (hs : ∀ j, env.scrollHeight j = Except.ok (s j)) :
    (∀ t, scrollPass t = { t with scrolls := t.scrolls ++ passScrolls,
                                  sleeps := t.sleeps ++ passSleeps }) ∧
    passScrolls = ((List.range' 1 9).map ScrollTarget.toFrac) ++ [ScrollTarget.toBottom] ∧
    passScrolls.length = 10 ∧
    (∀ K fuel t, 1 ≤ K → s K = s (K - 1) →
      (∀ j, 1 ≤ j → j < K → s j ≠ s (j - 1)) → K ≤ fuel →
      scroll_to_bottom env fuel t =
        (Outcome.ok (),
         { t with scrolls := t.scrolls ++ (List.replicate K passScrolls).flatten
                    ++ [ScrollTarget.toTop],
                  sleeps := t.sleeps ++ (List.replicate K passSleeps).flatten,
                  measures := t.measures ++ (List.range (K + 1)).map s })) ∧
    ((∀ j, s j < s (j + 1)) →
      ∀ fuel t, (scroll_to_bottom env fuel t).1 = Outcome.diverge) := by
  refine ⟨scrollPass_eq, rfl, rfl, ?_, ?_⟩
  · intro K fuel t hK hfix hmiss hfuel
    exact scroll_to_bottom_run env s hs K fuel t hK hfix hmiss hfuel
  · intro hg fuel t
    refine scroll_to_bottom_diverge env s hs (fun j hj => ?_) fuel t
    have hlt := hg (j - 1)
    have he : j - 1 + 1 = j := by omega
    rw [he] at hlt
    exact (Nat.ne_of_lt hlt).symm

/-- Witness for C5: constant height 600 stops the loop after a single
pass; the trace shows one pass of scrolls, the scroll back to the top and
the two height measurements. -/
theorem scroll_to_bottom_behavior_witness :
    scroll_to_bottom envOK 3 Trace.empty =
      (Outcome.ok (),
       { Trace.empty with
           scrolls := Trace.empty.scrolls ++ (List.replicate 1 passScrolls).flatten
             ++ [ScrollTarget.toTop],
           sleeps := Trace.empty.sleeps ++ (List.replicate 1 passSleeps).flatten,
           measures := Trace.empty.measures ++ (List.range 2).map (fun _ => 600) }) :=
  (scroll_to_bottom_behavior envOK (fun _ => 600) (fun j => rfl)).2.2.2.1
    1 3 Trace.empty le_rfl rfl (fun j h1 h2 => False.elim (by omega)) (by omega)

/-- C2 counterexample: a JavaScript error raised while reading the page
height inside the lazy-load scroll phase is not caught in that phase; it
propagates to the top-level handler, so the capture returns `None` and
never reaches the screenshot step — no file is written. -/
theorem scroll_exception_aborts_cex :
    (capture_screenshot envScrollErr "http://example.com" "out" none 3).1 =
      Outcome.ok none ∧
    (capture_screenshot envScrollErr "http://example.com" "out" none 3).2.files = [] :=
  ⟨rfl, rfl⟩

/-- C2 amended: of the four best-effort phases only two swallow failures
in-phase: the image wait catches exactly `TimeoutException`, and the
dynamic-content check catches every exception (yielding `False`).
Exceptions in the lazy-load scroll and height-stability phases are not
caught there and abort the capture with `None` (see the counterexample).
For the two tolerant phases: with navigation, scrolling, stability
sampling and the finishing steps all succeeding, an image-wait timeout
and any outcome whatsoever of the AJAX wait and the mutation script still
let the capture reach the screenshot step and return the pair of
paths. -/
theorem inphase_exception_tolerance (env : Env) (url dir : String) (fuel : Nat)
    (H S : Nat) (hm : HeightMetrics) (wm : WidthMetrics) (ttl cu ua : String)
    (h1 : env.navGet = Except.ok ()) (h2 : env.bodyWait = Except.ok ())
    (h3 : ∀ k, env.scrollHeight k = Except.ok H)
    (h4 : ∀ k, env.stableHeight k = Except.ok S)
    (h5 : env.imagesWait = Except.ok () ∨
      env.imagesWait = Except.error Exc.timeoutException)
    (h6 : env.heightMetrics = Except.ok hm) (h7 : env.widthMetrics = Except.ok wm)
    (h8 : env.setWindow = Except.ok ()) (h9 : env.saveScreenshot = Except.ok ())
    (h10 : env.title = Except.ok ttl) (h11 : env.currentUrl = Except.ok cu)
    (h12 : env.userAgent = Except.ok ua) (h13 : env.jsonWrite = Except.ok ())
    (hfuel : 1 ≤ fuel) :
    (capture_screenshot env url dir none fuel).1 =
      Outcome.ok (some (dir ++ "/" ++ ("snapshot_" ++ env.now) ++ ".png",
                        dir ++ "/" ++ ("snapshot_" ++ env.now) ++ ".json")) := by
  have htail : ∀ t : Trace, ∃ tf,
      (andThen (wait_for_images env t) fun _ t =>
        andThen (wait_for_dynamic_content env t) fun dynamic_content_loaded t =>
          andThen (extraDelay none true dynamic_content_loaded t) fun _ t =>
            captureFinish env url dir t) =
        (Outcome.ok (dir ++ "/" ++ ("snapshot_" ++ env.now) ++ ".png",
                     dir ++ "/" ++ ("snapshot_" ++ env.now) ++ ".json"), tf) := by
    intro t
    have himg : wait_for_images env t = (Outcome.ok (), t) := by
      unfold wait_for_images
      rcases h5 with h5 | h5 <;> rw [h5]
    rw [himg]
    simp only [andThen]
    obtain ⟨b, hdyn⟩ := wait_for_dynamic_content_ok env t
    rw [hdyn]
    simp only [andThen]
    rw [extraDelay_none true b t]
    simp only [andThen]
    rw [captureFinish_run env url dir _ h6 h7 h8 h9 h10 h11 h12 h13]
    exact ⟨_, rfl⟩
  have hbody : ∃ tf, captureBody env url dir none fuel Trace.empty =
      (Outcome.ok (dir ++ "/" ++ ("snapshot_" ++ env.now) ++ ".png",
                   dir ++ "/" ++ ("snapshot_" ++ env.now) ++ ".json"), tf) := by
    unfold captureBody
    rw [h1, h2]
    simp only [liftExc, andThen]
    have hscroll := scroll_to_bottom_run env (fun _ => H) h3 1 fuel Trace.empty
      le_rfl rfl (fun j hj1 hj2 => False.elim (by omega)) hfuel
    rw [hscroll]
    simp only [andThen]
    by_cases hS : S = 0
    · have hstable := fun t => (wait_stable_char env (fun _ => S) h4 t).2 0
        (by omega) (fun j hj => absurd hj (by omega)) (by simp [prevSample, hS])
      rw [hstable]
      simp only [andThen]
      exact htail _
    · have hstable := fun t => (wait_stable_char env (fun _ => S) h4 t).2 1
        (by omega)
        (fun j hj => by
          have hj0 : j = 0 := by omega
          subst hj0
          simpa [prevSample] using hS)
        rfl
      rw [hstable]
      simp only [andThen]
      exact htail _
  obtain ⟨tf, hb⟩ := hbody
  unfold capture_screenshot
  rw [hb]

/-- Witness for the amended C2: image wait times out and the AJAX wait
raises, yet the capture returns the pair of paths. -/
theorem inphase_exception_tolerance_witness :
    (capture_screenshot envImgTimeout "http://example.com" "out" none 3).1 =
      Outcome.ok (some ("out" ++ "/" ++ ("snapshot_" ++ envImgTimeout.now) ++ ".png",
                        "out" ++ "/" ++ ("snapshot_" ++ envImgTimeout.now) ++ ".json")) :=
  inphase_exception_tolerance envImgTimeout "http://example.com" "out" 3 600 600
    ⟨600, 580, 900, 600, 580⟩ ⟨800, 790, 1000, 800, 790⟩
    "Example Page" "http://example.com/" "TestUA/1.0"
    rfl rfl (fun k => rfl) (fun k => rfl) (Or.inr rfl) rfl rfl rfl rfl rfl rfl rfl rfl
    (by omega)

end WebSnapshot
